import Mathlib

/-!
Shallow embedding of `src/data_manager/data_manager.py`.

Modelling conventions:
* Python `datetime.datetime` values are modelled as seconds since the epoch
  (`DateTime := Int`); `datetime.timedelta(minutes=15)` is 900 seconds and
  `datetime.fromtimestamp` (a monotone local-time shift of a unix-seconds
  integer) is modelled as the identity embedding of seconds.  None of the
  claims depends on the concrete conversion.
* Python `float` field values are modelled as `ℚ`.  Python raises
  `ZeroDivisionError` on `x / 0.0` for floats (it does not produce IEEE
  infinities), so division is modelled as a fallible operation.
* Fallible Python code is modelled with `Except PyError`; each `PyError`
  constructor names the Python exception class that the source raises.
* The `Collection` backing store is `np.empty(size, dtype=Data)`, a numpy
  object array whose slots are initialized to `None`; it is modelled as
  `List (Option Data)` where `none` is an uninitialized slot.
-/

set_option autoImplicit false

namespace DataManager

/-- Python `datetime.datetime`, as seconds since the epoch. -/
abbrev DateTime := Int

/-- Seconds in `datetime.timedelta(minutes=15)`. -/
def timedelta15min : Int := 900

/-- Model of `datetime.datetime.fromtimestamp`: unix seconds to a local datetime.
The conversion is a monotone shift; it is modelled as the identity on
seconds. -/
def fromtimestamp (ts : Int) : DateTime := ts

/-- The Python exceptions raised by the modelled code.
Here `dataNotFound` is the exception class `DataNotFoundException` defined
by the repository (the "absent-data condition" of the spec), and
`notImplementedError` is the "unsupported-operation condition" of the spec. -/
inductive PyError where
  | dataNotFound
  | attributeError
  | notImplementedError
  | zeroDivisionError
  deriving DecidableEq

/-- Python float division: `a / b` raises `ZeroDivisionError` when `b == 0`. -/
def pyDiv (a b : ℚ) : Except PyError ℚ :=
  if b = 0 then .error .zeroDivisionError else .ok (a / b)

/-- Model of `Data.EnergySources` (the EnergyMix of the spec): one `float` field per source,
each defaulting to `0.0`.  The `Production` and `Power` subclasses add no
fields and are modelled by this same type. -/
structure EnergySources where
  pv : ℚ := 0
  wind_offshore : ℚ := 0
  wind_onshore : ℚ := 0
  biomass : ℚ := 0
  hydro : ℚ := 0
  other_renewables : ℚ := 0
  coal : ℚ := 0
  lignite : ℚ := 0
  gas : ℚ := 0
  other_conventionals : ℚ := 0
  nuclear : ℚ := 0
  deriving DecidableEq

/-- Model of `EnergySources.get_total_renewables`. -/
def EnergySources.get_total_renewables (m : EnergySources) : ℚ :=
  m.pv + m.wind_offshore + m.wind_onshore + m.biomass + m.hydro + m.other_renewables

/-- Model of `EnergySources.get_total_fossils`. -/
def EnergySources.get_total_fossils (m : EnergySources) : ℚ :=
  m.coal + m.lignite + m.gas + m.other_conventionals

/-- Model of `EnergySources.__truediv__`: divides every field by the scalar, in
declaration order, returning a new instance; a zero divisor raises
`ZeroDivisionError` at the first field. -/
def EnergySources.truediv (m : EnergySources) (value : ℚ) : Except PyError EnergySources := do
  let pv ← pyDiv m.pv value
  let wind_offshore ← pyDiv m.wind_offshore value
  let wind_onshore ← pyDiv m.wind_onshore value
  let biomass ← pyDiv m.biomass value
  let hydro ← pyDiv m.hydro value
  let other_renewables ← pyDiv m.other_renewables value
  let coal ← pyDiv m.coal value
  let lignite ← pyDiv m.lignite value
  let gas ← pyDiv m.gas value
  let other_conventionals ← pyDiv m.other_conventionals value
  let nuclear ← pyDiv m.nuclear value
  pure { pv := pv, wind_offshore := wind_offshore, wind_onshore := wind_onshore,
         biomass := biomass, hydro := hydro, other_renewables := other_renewables,
         coal := coal, lignite := lignite, gas := gas,
         other_conventionals := other_conventionals, nuclear := nuclear }

/-- Model of `Data.Consumption` (the LoadMix of the spec). -/
structure Consumption where
  load : ℚ := 0
  residual : ℚ := 0
  deriving DecidableEq

/-- Model of `Consumption.__truediv__`. -/
def Consumption.truediv (c : Consumption) (value : ℚ) : Except PyError Consumption := do
  let load ← pyDiv c.load value
  let residual ← pyDiv c.residual value
  pure { load := load, residual := residual }

/-- Model of `Data` (the Interval of the spec).  `end` is declared `init=False` in the
dataclass: it is not a constructor argument (see `Data.make`). -/
structure Data where
  start : DateTime
  «end» : DateTime
  production : EnergySources := {}
  power : EnergySources := {}
  consumption : Consumption := {}
  deriving DecidableEq

/-- The generated `Data.__init__` followed by `Data.__post_init__`, which
sets `self.end = self.start + dt.timedelta(minutes=15)`.  `end` cannot be
passed in: every `Data` in the model is built through this constructor.
(Calling `Data()` with the default `start=None` raises `TypeError` inside
`__post_init__` in Python and constructs nothing, so it needs no model.) -/
def Data.make (start : DateTime) (production power : EnergySources)
    (consumption : Consumption) : Data :=
  { start := start, «end» := start + timedelta15min,
    production := production, power := power, consumption := consumption }

/-- Model of `Data.__add__`: raises `NotImplementedError` unconditionally, for any
right operand. -/
def Data.add {α : Type} (_ : Data) (_ : α) : Except PyError Data :=
  .error .notImplementedError

/-- Model of `Data.__sub__`: raises `NotImplementedError` unconditionally. -/
def Data.sub {α : Type} (_ : Data) (_ : α) : Except PyError Data :=
  .error .notImplementedError

/-- Model of `Data.__mul__`: raises `NotImplementedError` unconditionally. -/
def Data.mul {α : Type} (_ : Data) (_ : α) : Except PyError Data :=
  .error .notImplementedError

/-- Model of `Data.__truediv__`: divides `production`, `power` and `consumption`
(in that evaluation order) and builds a new `Data` with the same `start`
through the dataclass constructor. -/
def Data.truediv (d : Data) (value : ℚ) : Except PyError Data :=
  match d.production.truediv value, d.power.truediv value, d.consumption.truediv value with
  | .ok p, .ok pw, .ok c => .ok (Data.make d.start p pw c)
  | .error e, _, _ => .error e
  | .ok _, .error e, _ => .error e
  | .ok _, .ok _, .error e => .error e

/-- Model of `Collection`: numpy-object-array backed store of `Data`.  `data` is the
backing array; a `none` slot is an uninitialized entry (as produced by
`np.empty(size, dtype=Data)`).  The mirror attribute `length` (kept equal to
`data.size` by every mutator and never read by the modelled operations),
the injected `parse_func`, and the `test_cases` registry are loader plumbing
not used by any modelled operation and are not carried in the model. -/
structure Collection where
  name : String := "n/a"
  data : List (Option Data) := []
  deriving DecidableEq

/-- Model of `Collection.__init__(size)`: `self.data = np.empty(size, dtype=Data)` —
`size` slots, all uninitialized (`None`). -/
def Collection.init (size : Nat) : Collection :=
  { name := "n/a", data := List.replicate size none }

/-- Model of `Collection.set_size(size)`: reallocates the backing array to `size`
uninitialized slots. -/
def Collection.set_size (c : Collection) (size : Nat) : Collection :=
  { c with data := List.replicate size none }

/-- Model of `Collection.get_length`: returns `self.data.size`. -/
def Collection.get_length (c : Collection) : Nat :=
  c.data.length

/-- The generator scan `next((d for d in self.data if d.start == start), None)`
shared by `Collection.get` and `Collection.get_by_timestamp`: walks the
backing array left to right; reading `.start` on an uninitialized (`None`)
slot raises `AttributeError`. -/
def scanStart (start : DateTime) : List (Option Data) → Except PyError (Option Data)
  | [] => .ok none
  | none :: _ => .error .attributeError
  | some d :: rest => if d.start = start then .ok (some d) else scanStart start rest

/-- Model of `Collection.get(start, unsafe_return=False)`: linear scan for an exact
`start` match; on no match it raises `DataNotFoundException` in strict mode
and returns `None` in lenient mode (`unsafe_return=True` in the source,
modelled by the `lenient` flag). -/
def Collection.get (c : Collection) (start : DateTime) (lenient : Bool := false) :
    Except PyError (Option Data) :=
  match scanStart start c.data with
  | .error e => .error e
  | .ok none => if lenient then .ok none else .error .dataNotFound
  | .ok (some d) => .ok (some d)

/-- Model of `Collection.get_by_timestamp(start, unsafe_return=False)`: converts the
unix-seconds key with `datetime.fromtimestamp` and then repeats the body of
`get` (the source inlines the scan rather than delegating). -/
def Collection.get_by_timestamp (c : Collection) (start : Int) (lenient : Bool := false) :
    Except PyError (Option Data) :=
  match scanStart (fromtimestamp start) c.data with
  | .error e => .error e
  | .ok none => if lenient then .ok none else .error .dataNotFound
  | .ok (some d) => .ok (some d)

/-- numpy integer indexing on an array of `n` elements: `0 ≤ i < n` addresses
slot `i`, `-n ≤ i < 0` addresses slot `i + n`, anything else raises
`IndexError` (here: `none`). -/
def pyIndex (i : Int) (n : Nat) : Option Nat :=
  if 0 ≤ i ∧ i < (n : Int) then some i.toNat
  else if -(n : Int) ≤ i ∧ i < 0 then some (i + n).toNat
  else none

/-- Model of `Collection.get_by_index(index, unsafe_return=False)`: returns
`self.data[index]` (numpy indexing, negative indices allowed); on
`IndexError` it raises `DataNotFoundException` in strict mode and returns
`None` in lenient mode.  An in-range uninitialized slot is returned as-is
(the stored `None`), with no exception in either mode. -/
def Collection.get_by_index (c : Collection) (index : Int) (lenient : Bool := false) :
    Except PyError (Option Data) :=
  match pyIndex index c.data.length with
  | some j => .ok (c.data.getD j none)
  | none => if lenient then .ok none else .error .dataNotFound

/-- The list comprehension
`[d for d in self.data if d.start >= start and d.start <= end]` of
`Collection.get_range`: reading `.start` on an uninitialized slot raises
`AttributeError`. -/
def filterRange (start stop : DateTime) : List (Option Data) → Except PyError (List Data)
  | [] => .ok []
  | none :: _ => .error .attributeError
  | some d :: rest => do
      let r ← filterRange start stop rest
      if start ≤ d.start ∧ d.start ≤ stop then pure (d :: r) else pure r

/-- Model of `Collection.get_range(start, end)`: both bounds inclusive, backing-array
order preserved.  (The parameter `end` of the source is `stop` here.) -/
def Collection.get_range (c : Collection) (start stop : DateTime) :
    Except PyError (List Data) :=
  filterRange start stop c.data

/-- Model of `Collection.remove_by_start(start)`: the source evaluates
`np.where(self.data.start == start)`, but `self.data` is an `np.ndarray`,
which has no attribute `start` (attribute access does not broadcast to the
elements of an object array), so the very first expression raises
`AttributeError` on every collection and every instant, before `np.where`
or `np.delete` can run.  No removal ever happens. -/
def Collection.remove_by_start (_ : Collection) (_ : DateTime) :
    Except PyError (Collection × Bool) :=
  .error .attributeError

/-- Model of `TestCaseResult`: every field defaults to `None`. -/
structure TestCaseResult where
  description : Option String := none
  result : Option Bool := none
  expected_value : Option ℚ := none
  actual_value : Option ℚ := none
  timestamp : Option Int := none
  deriving DecidableEq

/-- A validation case (`TestCase`).  `expected_value` and `actual_value`
default to `None` in the source and stay optional here; `timestamp`,
`collection`, `category` and `value_field` also default to `None` in the
source, but a case evaluated without them raises `TypeError`/`AttributeError`
before anything of interest happens, so the model keeps them mandatory
(the validation-case tuple of the spec always carries them). -/
structure TestCase where
  description : Option String := none
  timestamp : Int
  collection : Collection
  category : String
  value_field : String
  expected_value : Option ℚ := none
  actual_value : Option ℚ := none
  deriving DecidableEq

/-- Python `==` on optional floats: `None == None` is `True`,
`None == x` is `False` for a float `x`, floats compare by value. -/
def pyEq : Option ℚ → Option ℚ → Bool
  | none, none => true
  | none, some _ => false
  | some _, none => false
  | some a, some b => a = b

/-- Model of `getattr(d, self.category)` in `TestCase.evaluate`: the category string
selects one of the three sub-records; any other string raises
`AttributeError`.  (`getattr` could also reach `start`/`end`, but the
subsequent field read on a datetime raises `AttributeError` just the same,
so those resolve to the same error.) -/
def getattrCategory (d : Data) (category : String) :
    Except PyError (EnergySources ⊕ Consumption) :=
  if category = "production" then .ok (.inl d.production)
  else if category = "power" then .ok (.inl d.power)
  else if category = "consumption" then .ok (.inr d.consumption)
  else .error .attributeError

/-- Model of `getattr(value, self.value_field)`: reads the named float field of the
selected sub-record; an unknown name raises `AttributeError`. -/
def getattrField : EnergySources ⊕ Consumption → String → Except PyError ℚ
  | .inl m, f =>
      if f = "pv" then .ok m.pv
      else if f = "wind_offshore" then .ok m.wind_offshore
      else if f = "wind_onshore" then .ok m.wind_onshore
      else if f = "biomass" then .ok m.biomass
      else if f = "hydro" then .ok m.hydro
      else if f = "other_renewables" then .ok m.other_renewables
      else if f = "coal" then .ok m.coal
      else if f = "lignite" then .ok m.lignite
      else if f = "gas" then .ok m.gas
      else if f = "other_conventionals" then .ok m.other_conventionals
      else if f = "nuclear" then .ok m.nuclear
      else .error .attributeError
  | .inr c, f =>
      if f = "load" then .ok c.load
      else if f = "residual" then .ok c.residual
      else .error .attributeError

/-- Model of `TestCase.evaluate`: strict timestamp lookup (nothing is caught), then
dynamic category and field reads, then the result record is filled in.
The conditional `if (expected == None or actual == None):
result.result = False` in the source is dead code — the next line unconditionally
overwrites it with `result.result = self.expected_value == self.actual_value`,
which is the value modelled here.  The assignment to `self.actual_value` is
returned as the updated case (first component). -/
def TestCase.evaluate (tc : TestCase) : Except PyError (TestCase × TestCaseResult) := do
  let dOpt ← tc.collection.get_by_timestamp tc.timestamp
  let d ← match dOpt with
    | some d => pure d
    | none => throw PyError.attributeError
  let v ← getattrCategory d tc.category
  let actual ← getattrField v tc.value_field
  let tc2 := { tc with actual_value := some actual }
  let result : TestCaseResult :=
    { description := tc.description
      timestamp := some tc.timestamp
      expected_value := tc.expected_value
      actual_value := some actual
      result := some (pyEq tc.expected_value (some actual)) }
  pure (tc2, result)

instance {ε α : Type} [DecidableEq ε] [DecidableEq α] : DecidableEq (Except ε α) := fun x y =>
  match x, y with
  | .ok a, .ok b =>
      if h : a = b then .isTrue (by rw [h]) else .isFalse (fun hc => h (Except.ok.inj hc))
  | .error a, .error b =>
      if h : a = b then .isTrue (by rw [h]) else .isFalse (fun hc => h (Except.error.inj hc))
  | .ok _, .error _ => .isFalse Except.noConfusion
  | .error _, .ok _ => .isFalse Except.noConfusion

/-- A sample Interval starting at second 100, all sources zero
(used by witnesses and counterexamples). -/
def d100 : Data := Data.make 100 {} {} {}

/-- A one-slot collection holding `d100` (used by witnesses). -/
def coll100 : Collection := { name := "n/a", data := [some d100] }

/-- A one-slot collection whose slot is uninitialized, as produced by
`Collection(1)` (used by counterexamples). -/
def collHole : Collection := Collection.init 1

/-- A validation case whose collection is `collHole`; its timestamp matches
no stored Interval (the collection stores none at all). -/
def tcHole : TestCase :=
  { timestamp := 0, collection := collHole, category := "production",
    value_field := "pv", expected_value := some 1 }

/-- A validation case on `coll100` whose timestamp (5) matches no stored
Interval. -/
def tcMiss : TestCase :=
  { timestamp := 5, collection := coll100, category := "production",
    value_field := "pv", expected_value := some 1 }

/-- A validation case on `coll100` whose timestamp matches `d100` and whose
expected value is left unset (`None`). -/
def tcUnset : TestCase :=
  { timestamp := 100, collection := coll100, category := "production",
    value_field := "pv" }

@[simp] theorem exceptBind_ok {ε α β : Type} (a : α) (f : α → Except ε β) :
    (Except.ok a >>= f) = f a := rfl

@[simp] theorem exceptBind_error {ε α β : Type} (e : ε) (f : α → Except ε β) :
    ((Except.error e : Except ε α) >>= f) = .error e := rfl

@[simp] theorem exceptPure_eq {ε α : Type} (a : α) :
    (pure a : Except ε α) = .ok a := rfl

@[simp] theorem exceptThrow_eq {ε α : Type} (e : ε) :
    (throw e : Except ε α) = .error e := rfl

/-- On a hole-free backing array the shared scan is `List.find?` on the
stored Intervals. -/
theorem scanStart_map_some (s : DateTime) (l : List Data) :
    scanStart s (l.map some) = .ok (l.find? fun d => decide (d.start = s)) := by
  induction l with
  | nil => rfl
  | cons d rest ih =>
      by_cases h : d.start = s
      · simp [scanStart, List.find?, h]
      · simp [scanStart, List.find?, h, ih]

/-- On a hole-free backing array the range comprehension is `List.filter`. -/
theorem filterRange_map_some (a b : DateTime) (l : List Data) :
    filterRange a b (l.map some) =
      .ok (l.filter fun d => decide (a ≤ d.start ∧ d.start ≤ b)) := by
  induction l with
  | nil => rfl
  | cons d rest ih =>
      by_cases h : a ≤ d.start ∧ d.start ≤ b
      · simp [filterRange, List.filter, h, ih]
      · simp [filterRange, List.filter, h, ih]

/-- A position resolved by numpy indexing is in bounds. -/
theorem pyIndex_some_lt {i : Int} {n j : Nat} (h : pyIndex i n = some j) : j < n := by
  unfold pyIndex at h
  split_ifs at h with h1 h2 <;> simp_all <;> omega

/-- numpy indexing fails exactly on the out-of-range indices. -/
theorem pyIndex_none_iff (i : Int) (n : Nat) :
    pyIndex i n = none ↔ ((n : Int) ≤ i ∨ i < -(n : Int)) := by
  unfold pyIndex
  split_ifs with h1 h2 <;> simp <;> omega

/-- In-range negative indices resolve to position `i + n`. -/
theorem pyIndex_neg {i : Int} {n : Nat} (hlo : -(n : Int) ≤ i) (hhi : i < 0) :
    pyIndex i n = some (i + n).toNat := by
  unfold pyIndex
  split_ifs with h1 h2 <;> first | rfl | omega

/-- Dividing an EnergyMix by a nonzero scalar succeeds, field-wise. -/
theorem EnergySources.truediv_nonzero_ok (m : EnergySources) {v : ℚ} (hv : v ≠ 0) :
    m.truediv v = .ok
      { pv := m.pv / v, wind_offshore := m.wind_offshore / v,
        wind_onshore := m.wind_onshore / v, biomass := m.biomass / v,
        hydro := m.hydro / v, other_renewables := m.other_renewables / v,
        coal := m.coal / v, lignite := m.lignite / v, gas := m.gas / v,
        other_conventionals := m.other_conventionals / v, nuclear := m.nuclear / v } := by
  simp [EnergySources.truediv, pyDiv, hv]

/-- Dividing a LoadMix by a nonzero scalar succeeds, field-wise. -/
theorem Consumption.truediv_zero_free_ok (c : Consumption) {v : ℚ} (hv : v ≠ 0) :
    c.truediv v = .ok { load := c.load / v, residual := c.residual / v } := by
  simp [Consumption.truediv, pyDiv, hv]

/-- Dividing an Interval by a nonzero scalar succeeds. -/
theorem Data.truediv_isOk (d : Data) {v : ℚ} (hv : v ≠ 0) :
    ∃ d2, d.truediv v = .ok d2 := by
  rw [Data.truediv, EnergySources.truediv_nonzero_ok d.production hv,
    EnergySources.truediv_nonzero_ok d.power hv, Consumption.truediv_zero_free_ok d.consumption hv]
  exact ⟨_, rfl⟩

/-- Dividing the all-zero Interval `d100` by 2 returns `d100` itself. -/
theorem d100_truediv_two : d100.truediv 2 = .ok d100 := by
  rw [Data.truediv,
    EnergySources.truediv_nonzero_ok d100.production (by norm_num : (2:ℚ) ≠ 0),
    EnergySources.truediv_nonzero_ok d100.power (by norm_num : (2:ℚ) ≠ 0),
    Consumption.truediv_zero_free_ok d100.consumption (by norm_num : (2:ℚ) ≠ 0)]
  norm_num [d100, Data.make]

/-- C2: `Collection.remove_by_start` never removes anything: on every
collection and every instant the expression `self.data.start` raises
`AttributeError` (an `np.ndarray` has no attribute `start`), so the claimed
remove-and-report-bool behavior is unreachable. -/
theorem C2_remove_by_start_always_raises (c : Collection) (start : DateTime) :
    c.remove_by_start start = .error .attributeError := rfl

/-- C5: Interval-level `+`, `-` and `*` raise the unsupported-operation
condition (`NotImplementedError`) for every Interval and every right
operand, while scalar division by a nonzero scalar is supported and
returns a new Interval. -/
theorem C5_interval_arithmetic_guard (α : Type) (a : Data) (value : α)
    (q : ℚ) (hq : q ≠ 0) :
    a.add value = .error .notImplementedError ∧
    a.sub value = .error .notImplementedError ∧
    a.mul value = .error .notImplementedError ∧
    ∃ d2, a.truediv q = .ok d2 := by
  exact ⟨rfl, rfl, rfl, a.truediv_isOk hq⟩

/-- C5 witness: adding, subtracting or multiplying two concrete Intervals
raises `NotImplementedError`, and dividing by 2 succeeds. -/
theorem C5_interval_arithmetic_guard_witness :
    Data.add d100 d100 = .error .notImplementedError ∧
    Data.sub d100 d100 = .error .notImplementedError ∧
    Data.mul d100 d100 = .error .notImplementedError ∧
    ∃ d2, Data.truediv d100 2 = .ok d2 :=
  C5_interval_arithmetic_guard Data d100 d100 2 (by norm_num)

/-- C6: an Interval built by the dataclass constructor has
`end = start + 15 minutes` (and its `start` is the instant passed in —
`end` is not a constructor argument, see `Data.make`); every Interval
produced by scalar division satisfies the same equation and keeps the
`start` of the dividend. -/
theorem C6_end_is_start_plus_15_minutes (s : DateTime) (p pw : EnergySources)
    (cn : Consumption) (d d2 : Data) (v : ℚ) (hdiv : d.truediv v = .ok d2) :
    (Data.make s p pw cn).«end» = (Data.make s p pw cn).start + timedelta15min ∧
    (Data.make s p pw cn).start = s ∧
    d2.«end» = d2.start + timedelta15min ∧
    d2.start = d.start := by
  refine ⟨rfl, rfl, ?_⟩
  unfold Data.truediv at hdiv
  split at hdiv
  · cases hdiv
    exact ⟨rfl, rfl⟩
  · cases hdiv
  · cases hdiv
  · cases hdiv

/-- C6 witness: the constructor equation at second 0, and division of the
concrete Interval `d100` by 2 (which returns `d100` itself, all fields
being zero). -/
theorem C6_end_is_start_plus_15_minutes_witness :
    (Data.make 0 {} {} {}).«end» = (Data.make 0 {} {} {}).start + timedelta15min ∧
    (Data.make 0 {} {} {}).start = 0 ∧
    d100.«end» = d100.start + timedelta15min ∧
    d100.start = d100.start :=
  C6_end_is_start_plus_15_minutes 0 {} {} {} d100 d100 2 d100_truediv_two

/-- C8: `get_total_renewables` is the sum of the six renewable fields,
`get_total_fossils` the sum of the four fossil fields, and `nuclear`
contributes to neither (changing it changes neither aggregate). -/
theorem C8_totals_grouping (m : EnergySources) (x : ℚ) :
    m.get_total_renewables =
      m.pv + m.wind_offshore + m.wind_onshore + m.biomass + m.hydro + m.other_renewables ∧
    m.get_total_fossils = m.coal + m.lignite + m.gas + m.other_conventionals ∧
    EnergySources.get_total_renewables { m with nuclear := x } = m.get_total_renewables ∧
    EnergySources.get_total_fossils { m with nuclear := x } = m.get_total_fossils :=
  ⟨rfl, rfl, rfl, rfl⟩

/-- C9 counterexample: dividing a concrete EnergyMix (and a concrete
LoadMix) by the scalar zero raises `ZeroDivisionError` — Python float
division by zero raises; it does not produce infinity/NaN values in a
returned instance. -/
theorem C9_div_by_zero_counterexample :
    EnergySources.truediv {} 0 = .error .zeroDivisionError ∧
    Consumption.truediv {} 0 = .error .zeroDivisionError ∧
    (Except.error .zeroDivisionError : Except PyError EnergySources) ≠ .ok {} := by
  refine ⟨rfl, rfl, by decide⟩

/-- C9 (amended): dividing any EnergyMix or LoadMix by the scalar zero
raises the `ZeroDivisionError` condition (no instance is returned). -/
theorem C9_div_by_zero_raises (m : EnergySources) (c : Consumption) :
    m.truediv 0 = .error .zeroDivisionError ∧
    c.truediv 0 = .error .zeroDivisionError := by
  constructor
  · simp [EnergySources.truediv, pyDiv]
  · simp [Consumption.truediv, pyDiv]

/-- C7 counterexample: on a collection with an uninitialized slot (as built
by `Collection(1)`), `get_range` raises `AttributeError` instead of
returning the (empty) list of Intervals with `start` in range. -/
theorem C7_get_range_counterexample :
    Collection.get_range collHole 0 10 = .error .attributeError ∧
    (Except.error PyError.attributeError : Except PyError (List Data)) ≠ .ok [] :=
  ⟨rfl, by decide⟩

/-- C7 (amended): on every collection all of whose slots are initialized,
`get_range a b` returns exactly the stored Intervals whose `start` lies in
the closed interval `[a, b]`, in backing-array order. -/
theorem C7_get_range_filter (l : List Data) (c : Collection)
    (hc : c.data = l.map some) (a b : DateTime) :
    c.get_range a b = .ok (l.filter fun d => decide (a ≤ d.start ∧ d.start ≤ b)) := by
  rw [Collection.get_range, hc, filterRange_map_some]

/-- C7 witness: the one-Interval collection `coll100` queried over `[0, 200]`
returns exactly `[d100]`. -/
theorem C7_get_range_filter_witness :
    Collection.get_range coll100 0 200 = .ok [d100] :=
  (C7_get_range_filter [d100] coll100 rfl 0 200).trans (by decide)

/-- C3 counterexample: on a collection with an uninitialized slot (as built
by `Collection(1)`), a lookup by start instant raises `AttributeError` in
both modes — strict mode does not raise the absent-data condition
(`DataNotFoundException`) and lenient mode does not return `None`. -/
theorem C3_lookup_counterexample :
    Collection.get collHole 0 false = .error .attributeError ∧
    Collection.get collHole 0 true = .error .attributeError ∧
    (Except.error PyError.attributeError : Except PyError (Option Data)) ≠
      .error .dataNotFound ∧
    (Except.error PyError.attributeError : Except PyError (Option Data)) ≠ .ok none :=
  ⟨rfl, rfl, by decide, by decide⟩

/-- C3 (amended): on every collection all of whose slots are initialized,
each lookup — by start instant (`get`), by unix-seconds timestamp
(`get_by_timestamp`), or by ordinal position (`get_by_index`) — raises the
absent-data condition in strict mode and returns `None` in lenient mode
when the key matches nothing, and returns the matching Interval in both
modes when it does. -/
theorem C3_strict_lenient_lookup (l : List Data) (c : Collection)
    (hc : c.data = l.map some) (s : DateTime) (ts : Int) (i : Int) :
    ((l.find? (fun d => decide (d.start = s)) = none →
        c.get s false = .error .dataNotFound ∧ c.get s true = .ok none) ∧
      (∀ d, l.find? (fun d => decide (d.start = s)) = some d →
        c.get s false = .ok (some d) ∧ c.get s true = .ok (some d))) ∧
    ((l.find? (fun d => decide (d.start = fromtimestamp ts)) = none →
        c.get_by_timestamp ts false = .error .dataNotFound ∧
          c.get_by_timestamp ts true = .ok none) ∧
      (∀ d, l.find? (fun d => decide (d.start = fromtimestamp ts)) = some d →
        c.get_by_timestamp ts false = .ok (some d) ∧
          c.get_by_timestamp ts true = .ok (some d))) ∧
    ((pyIndex i l.length = none →
        c.get_by_index i false = .error .dataNotFound ∧
          c.get_by_index i true = .ok none) ∧
      (∀ j, pyIndex i l.length = some j →
        c.get_by_index i false = .ok l[j]? ∧ c.get_by_index i true = .ok l[j]? ∧
          (l[j]?).isSome = true)) := by
  have hlen : c.data.length = l.length := by rw [hc]; simp
  refine ⟨⟨?_, ?_⟩, ⟨?_, ?_⟩, ⟨?_, ?_⟩⟩
  · intro hf
    constructor <;> simp [Collection.get, hc, scanStart_map_some, hf]
  · intro d hf
    constructor <;> simp [Collection.get, hc, scanStart_map_some, hf]
  · intro hf
    constructor <;> simp [Collection.get_by_timestamp, hc, scanStart_map_some, hf]
  · intro d hf
    constructor <;> simp [Collection.get_by_timestamp, hc, scanStart_map_some, hf]
  · intro hp
    constructor <;> simp [Collection.get_by_index, hlen, hp]
  · intro j hp
    have hj : j < l.length := pyIndex_some_lt hp
    have hD : c.data[j]?.getD none = l[j]? := by
      rw [hc, List.getElem?_map, List.getElem?_eq_getElem hj]
      rfl
    refine ⟨?_, ?_, ?_⟩
    · simp [Collection.get_by_index, hlen, hp, hD]
    · simp [Collection.get_by_index, hlen, hp, hD]
    · rw [List.getElem?_eq_getElem hj]
      rfl

/-- C3 witness: on `coll100` the absent start instant 5 raises
`DataNotFoundException` in strict mode and returns `None` in lenient mode. -/
theorem C3_strict_lenient_lookup_witness :
    Collection.get coll100 5 false = .error .dataNotFound ∧
    Collection.get coll100 5 true = .ok none :=
  (C3_strict_lenient_lookup [d100] coll100 rfl 5 5 0).1.1 (by decide)

/-- C4 counterexample: evaluating a validation case whose collection has an
uninitialized slot (and hence no matching Interval) propagates
`AttributeError`, not the absent-data condition. -/
theorem C4_missing_timestamp_counterexample :
    TestCase.evaluate tcHole = .error .attributeError ∧
    (Except.error PyError.attributeError : Except PyError (TestCase × TestCaseResult)) ≠
      .error .dataNotFound :=
  ⟨rfl, by decide⟩

/-- C4 (amended): for a validation case over a collection all of whose slots
are initialized, if no stored Interval matches the target timestamp then
evaluation propagates the absent-data condition (`DataNotFoundException`)
uncaught — the very error raised by the strict timestamp lookup of the collection —
instead of returning a failing result. -/
theorem C4_missing_timestamp_propagates (l : List Data) (tc : TestCase)
    (hc : tc.collection.data = l.map some)
    (hmiss : ∀ d ∈ l, d.start ≠ fromtimestamp tc.timestamp) :
    TestCase.evaluate tc = .error .dataNotFound ∧
    tc.collection.get_by_timestamp tc.timestamp = .error .dataNotFound := by
  have hf : l.find? (fun d => decide (d.start = fromtimestamp tc.timestamp)) = none := by
    rw [List.find?_eq_none]
    intro d hd
    simp [hmiss d hd]
  have hget : tc.collection.get_by_timestamp tc.timestamp = .error .dataNotFound := by
    simp [Collection.get_by_timestamp, hc, scanStart_map_some, hf]
  exact ⟨by simp [TestCase.evaluate, hget], hget⟩

/-- C4 witness: the concrete case `tcMiss` (timestamp 5 over `coll100`,
which stores only an Interval starting at 100) evaluates to
`DataNotFoundException`. -/
theorem C4_missing_timestamp_propagates_witness :
    TestCase.evaluate tcMiss = .error .dataNotFound ∧
    Collection.get_by_timestamp coll100 5 = .error .dataNotFound :=
  C4_missing_timestamp_propagates [d100] tcMiss rfl (by decide)

/-- C10: for a non-empty collection of logical length `n`, a negative index
`-n ≤ i < 0` succeeds in both modes and returns the content of slot `n + i`
(numpy negative indexing); indices with `i ≥ n` or `i < -n` raise the
`IndexError`-driven `DataNotFoundException` in strict mode and return `None`
in lenient mode, and strict mode raises exactly for those indices. -/
theorem C10_negative_indexing (c : Collection) (i : Int) :
    (0 < c.get_length → -(c.get_length : Int) ≤ i → i < 0 →
      c.get_by_index i false = .ok (c.data.getD (i + c.get_length).toNat none) ∧
      c.get_by_index i true = .ok (c.data.getD (i + c.get_length).toNat none)) ∧
    ((c.get_length : Int) ≤ i ∨ i < -(c.get_length : Int) →
      c.get_by_index i false = .error .dataNotFound ∧
        c.get_by_index i true = .ok none) ∧
    (c.get_by_index i false = .error .dataNotFound ↔
      ((c.get_length : Int) ≤ i ∨ i < -(c.get_length : Int))) := by
  have hn : c.get_length = c.data.length := rfl
  refine ⟨?_, ?_, ?_⟩
  · intro _ hlo hhi
    have hp : pyIndex i c.data.length = some (i + c.data.length).toNat :=
      pyIndex_neg (by rw [hn] at hlo; exact hlo) hhi
    constructor <;> simp [Collection.get_by_index, hp, hn]
  · intro h
    have hp : pyIndex i c.data.length = none := by
      rw [pyIndex_none_iff]
      rw [hn] at h
      exact h
    constructor <;> simp [Collection.get_by_index, hp]
  · rw [hn]
    constructor
    · intro h
      rw [← pyIndex_none_iff]
      cases hp : pyIndex i c.data.length with
      | none => rfl
      | some j => simp [Collection.get_by_index, hp] at h
    · intro h
      have hp : pyIndex i c.data.length = none := (pyIndex_none_iff _ _).2 h
      simp [Collection.get_by_index, hp]

/-- C10 witness: on the one-Interval collection `coll100`, index `-1`
returns the stored Interval in strict mode, and index `2` (out of range)
raises `DataNotFoundException`. -/
theorem C10_negative_indexing_witness :
    Collection.get_by_index coll100 (-1) false = .ok (some d100) ∧
    Collection.get_by_index coll100 2 false = .error .dataNotFound := by
  constructor
  · exact (((C10_negative_indexing coll100 (-1)).1 (by decide) (by decide)
      (by decide)).1).trans (by decide)
  · exact ((C10_negative_indexing coll100 2).2.1 (by decide)).1

/-- C1: a validation case whose expected value is unset (`None`) yields a
failing result record (`result = False`) without raising, once the target
timestamp resolves to an Interval and the category/field selectors resolve.
(The actual value read from a resolved Interval field is always a stored
float, so an unset comparison value can only be the expected one; in Python
the comparison `None == float` is `False`, which the dead conditional in the
source would also have assigned.) -/
theorem C1_unset_expected_fails (tc : TestCase) (d : Data)
    (v : EnergySources ⊕ Consumption) (a : ℚ)
    (hres : tc.collection.get_by_timestamp tc.timestamp = .ok (some d))
    (hcat : getattrCategory d tc.category = .ok v)
    (hfield : getattrField v tc.value_field = .ok a)
    (hexp : tc.expected_value = none) :
    TestCase.evaluate tc =
      .ok ({ tc with actual_value := some a },
        { description := tc.description, timestamp := some tc.timestamp,
          expected_value := none, actual_value := some a, result := some false }) := by
  simp [TestCase.evaluate, hres, hcat, hfield, hexp, pyEq]

/-- C1 witness: the concrete case `tcUnset` (expected value unset, timestamp
resolving to `d100`, selectors `production`/`pv`) evaluates without raising
to a result record with `result = False` and actual value 0. -/
theorem C1_unset_expected_fails_witness :
    TestCase.evaluate tcUnset =
      .ok ({ tcUnset with actual_value := some 0 },
        { description := none, timestamp := some 100, expected_value := none,
          actual_value := some 0, result := some false }) := by
  have h := C1_unset_expected_fails tcUnset d100 (.inl d100.production)
    d100.production.pv (by decide) (by decide) (by decide) rfl
  exact h.trans (by decide)

end DataManager

